import Mathlib

/-!
Verification development for the GPU rendering abstraction layer of the
wayfire compositor (src/core/opengl.cpp, src/api/wayfire/opengl.hpp).

The C++ code is shallowly embedded: machine floats on small integral and
half-integral values are modelled by rationals, GL handles by naturals,
and the GL driver by an explicit state record threaded through the
operations.  External library functions (wlroots box transforms, glm
matrix helpers) are modelled from their library semantics, as noted on
each definition.
-/

/-- Model of `wlr_box` / `wf::geometry_t`: integer rectangle. -/
structure wlr_box where
  x : Int
  y : Int
  width : Int
  height : Int
deriving DecidableEq, Repr

/-- Model of `glm::vec4` (components as rationals). -/
structure Vec4 where
  x : ℚ
  y : ℚ
  z : ℚ
  w : ℚ
deriving DecidableEq, Repr

/-- Model of `glm::mat4`, column major as in glm: fields are the four columns. -/
structure Mat4 where
  c0 : Vec4
  c1 : Vec4
  c2 : Vec4
  c3 : Vec4
deriving DecidableEq, Repr

/-- Matrix-vector product (glm semantics, columns combined by the vector). -/
def Mat4.app (m : Mat4) (v : Vec4) : Vec4 :=
  { x := m.c0.x * v.x + m.c1.x * v.y + m.c2.x * v.z + m.c3.x * v.w
    y := m.c0.y * v.x + m.c1.y * v.y + m.c2.y * v.z + m.c3.y * v.w
    z := m.c0.z * v.x + m.c1.z * v.y + m.c2.z * v.z + m.c3.z * v.w
    w := m.c0.w * v.x + m.c1.w * v.y + m.c2.w * v.z + m.c3.w * v.w }

/-- Matrix product `a * b` (glm semantics). -/
def Mat4.mul (a b : Mat4) : Mat4 :=
  { c0 := a.app b.c0, c1 := a.app b.c1, c2 := a.app b.c2, c3 := a.app b.c3 }

/-- The identity matrix, `glm::mat4(1.0)`. -/
def mat4_identity : Mat4 :=
  { c0 := ⟨1, 0, 0, 0⟩, c1 := ⟨0, 1, 0, 0⟩, c2 := ⟨0, 0, 1, 0⟩, c3 := ⟨0, 0, 0, 1⟩ }

/-- Modelled from the glm library: `glm::ortho(left, right, bottom, top)`
(near = -1, far = 1).  Entries follow glm's `orthoRH_NO` with the default
clip conventions. -/
def glm_ortho (left right bottom top : ℚ) : Mat4 :=
  { c0 := ⟨2 / (right - left), 0, 0, 0⟩
    c1 := ⟨0, 2 / (top - bottom), 0, 0⟩
    c2 := ⟨0, 0, -1, 0⟩
    c3 := ⟨-(right + left) / (right - left), -(top + bottom) / (top - bottom), 0, 1⟩ }

namespace wf

/-- `wf::texture_type_t` (opengl.hpp).  `TEXTURE_TYPE_ALL` is only an array
bound in the source and is represented by the type itself having three
inhabitants. -/
inductive texture_type_t where
  | RGBA
  | RGBX
  | EXTERNAL
deriving DecidableEq, Repr

/-- Numeric value of the enum in the source (RGBA = 0, RGBX = 1, EXTERNAL = 2). -/
def texture_type_t.toNat : texture_type_t → Nat
  | .RGBA => 0
  | .RGBX => 1
  | .EXTERNAL => 2

/-- The GL constant `GL_TEXTURE_2D`. -/
def GL_TEXTURE_2D : Nat := 0x0DE1

/-- `wf::texture_t` (opengl.hpp): lightweight texture descriptor. -/
structure texture_t where
  type : texture_type_t := .RGBA
  target : Nat := GL_TEXTURE_2D
  invert_y : Bool := false
  tex_id : Nat := 0
deriving DecidableEq, Repr

/-- The attributes reported by the wlroots import provider
(`wlr_gles2_texture_attribs`). -/
structure wlr_gles2_texture_attribs where
  target : Nat
  tex : Nat
  has_alpha : Bool
  inverted_y : Bool
deriving DecidableEq, Repr

/-- `wf::texture_t::texture_t(wlr_texture*)` (opengl.cpp lines 466-483),
after `wlr_gles2_texture_get_attribs` has produced `attribs`. -/
def texture_t.of_wlr (attribs : wlr_gles2_texture_attribs) : texture_t :=
  { invert_y := !attribs.inverted_y
    target := attribs.target
    tex_id := attribs.tex
    type :=
      if attribs.target = GL_TEXTURE_2D then
        (if attribs.has_alpha then .RGBA else .RGBX)
      else
        .EXTERNAL }

end wf

/-- The `(uint32_t)-1` sentinel used for unallocated GL handles. -/
def u32max : Nat := 4294967295

/-- `wf::framebuffer_base_t` data (opengl.hpp lines 41-76). -/
structure framebuffer_base_t where
  tex : Nat := u32max
  fb : Nat := u32max
  viewport_width : Int := 0
  viewport_height : Int := 0
deriving DecidableEq, Repr

/-- `wf::framebuffer_t` (opengl.hpp lines 81-118): extends the base target
with output geometry, scale, transform data. -/
structure framebuffer_t extends framebuffer_base_t where
  geometry : wlr_box := ⟨0, 0, 0, 0⟩
  wl_transform : Nat := 0
  scale : ℚ := 1
  has_nonstandard_transform : Bool := false
  transform : Mat4 := mat4_identity
deriving DecidableEq, Repr

/-- Modelled from the wlroots library: `wlr_output_transform_invert`.
Swaps the 90 and 270 rotations for non-flipped transforms. -/
def wlr_output_transform_invert (tr : Nat) : Nat :=
  if tr &&& 1 ≠ 0 ∧ tr &&& 4 = 0 then tr ^^^ 2 else tr

/-- Modelled from the wlroots library: `wlr_box_transform(dest, box, transform,
width, height)`, mapping a box through an output transform inside a
`width`-by-`height` space.  Transform values 0-3 are the rotations,
4-7 their flipped variants. -/
def wlr_box_transform (box : wlr_box) (transform : Nat) (width height : Int) : wlr_box :=
  let w := if transform % 2 = 0 then box.width else box.height
  let h := if transform % 2 = 0 then box.height else box.width
  match transform with
  | 0 => ⟨box.x, box.y, w, h⟩
  | 1 => ⟨height - box.y - box.height, box.x, w, h⟩
  | 2 => ⟨width - box.x - box.width, height - box.y - box.height, w, h⟩
  | 3 => ⟨box.y, width - box.x - box.width, w, h⟩
  | 4 => ⟨width - box.x - box.width, box.y, w, h⟩
  | 5 => ⟨box.y, box.x, w, h⟩
  | 6 => ⟨box.x, height - box.y - box.height, w, h⟩
  | _ => ⟨height - box.y - box.height, width - box.x - box.width, w, h⟩

/-- `wf::framebuffer_t::damage_box_from_geometry_box` (opengl.cpp lines
405-413): floor the origin, ceil the extent, scaled by `scale`. -/
def framebuffer_t.damage_box_from_geometry_box (self : framebuffer_t) (box : wlr_box) : wlr_box :=
  { x := ⌊(box.x : ℚ) * self.scale⌋
    y := ⌊(box.y : ℚ) * self.scale⌋
    width := ⌈(box.width : ℚ) * self.scale⌉
    height := ⌈(box.height : ℚ) * self.scale⌉ }

/-- `wf::framebuffer_t::framebuffer_box_from_damage_box` (opengl.cpp lines
381-403).  When `has_nonstandard_transform` is set the source logs
"unimplemented reached" and returns the all-zero box; otherwise it applies
the inverse of the configured output transform inside the (possibly
swapped) viewport. -/
def framebuffer_t.framebuffer_box_from_damage_box (self : framebuffer_t) (box : wlr_box) : wlr_box :=
  if self.has_nonstandard_transform then
    ⟨0, 0, 0, 0⟩
  else
    let width := if self.wl_transform &&& 1 ≠ 0 then self.viewport_height else self.viewport_width
    let height := if self.wl_transform &&& 1 ≠ 0 then self.viewport_width else self.viewport_height
    wlr_box_transform box (wlr_output_transform_invert self.wl_transform) width height

/-- `wf::framebuffer_t::framebuffer_box_from_geometry_box` (opengl.cpp lines
415-418): the composition of the two conversions above. -/
def framebuffer_t.framebuffer_box_from_geometry_box (self : framebuffer_t) (box : wlr_box) : wlr_box :=
  self.framebuffer_box_from_damage_box (self.damage_box_from_geometry_box box)

/-- `wf::framebuffer_t::get_orthographic_projection` (opengl.cpp lines
425-433): `transform * ortho(x, x + w, y + h, y)`. -/
def framebuffer_t.get_orthographic_projection (self : framebuffer_t) : Mat4 :=
  Mat4.mul self.transform
    (glm_ortho (self.geometry.x : ℚ)
      ((self.geometry.x : ℚ) + (self.geometry.width : ℚ))
      ((self.geometry.y : ℚ) + (self.geometry.height : ℚ))
      (self.geometry.y : ℚ))

/-!
The GL driver is modelled as an explicit state record.  Handle generation
(`glGen*`) hands out consecutive names starting from `next_handle`;
attribute-array enable bits, per-attribute divisors and the active program
are recorded directly; `glTexImage2D` calls are logged so that storage
(re)allocation is observable.  `glGetUniformLocation` / `glGetAttribLocation`
are modelled by the pure oracles `uniform_loc_of` / `attrib_loc_of`, and
framebuffer-completeness checks always report complete (the modelled driver
never runs out of resources).
-/

/-- The modelled GL driver state. -/
structure GLState where
  next_handle : Nat
  bound_texture_2d : Nat
  bound_framebuffer : Nat
  teximage_log : List (Nat × Int × Int)
  enabled_attribs : Int → Bool
  divisors : Int → Nat
  active_program : Nat
  deleted_programs : List Nat
  attrib_loc_of : Nat → String → Int
  uniform_loc_of : Nat → String → Int

/-- `glGenFramebuffers` / `glGenTextures` generating a single fresh name. -/
def GLState.genOne (gl : GLState) : Nat × GLState :=
  (gl.next_handle, { gl with next_handle := gl.next_handle + 1 })

/-- `glBindTexture(GL_TEXTURE_2D, tex)`. -/
def GLState.bindTexture2D (gl : GLState) (tex : Nat) : GLState :=
  { gl with bound_texture_2d := tex }

/-- `glBindFramebuffer(GL_FRAMEBUFFER, fb)`. -/
def GLState.bindFramebuffer (gl : GLState) (fb : Nat) : GLState :=
  { gl with bound_framebuffer := fb }

/-- `glTexImage2D(GL_TEXTURE_2D, ...)`: reallocates the storage of the
texture currently bound to `GL_TEXTURE_2D`, invalidating its contents;
logged as (texture, width, height). -/
def GLState.texImage2D (gl : GLState) (width height : Int) : GLState :=
  { gl with teximage_log := (gl.bound_texture_2d, width, height) :: gl.teximage_log }

/-- `glEnableVertexAttribArray(loc)`. -/
def GLState.enableVertexAttribArray (gl : GLState) (loc : Int) : GLState :=
  { gl with enabled_attribs := fun l => if l = loc then true else gl.enabled_attribs l }

/-- `glDisableVertexAttribArray(loc)`. -/
def GLState.disableVertexAttribArray (gl : GLState) (loc : Int) : GLState :=
  { gl with enabled_attribs := fun l => if l = loc then false else gl.enabled_attribs l }

/-- `glVertexAttribDivisor(loc, divisor)`. -/
def GLState.vertexAttribDivisor (gl : GLState) (loc : Int) (divisor : Nat) : GLState :=
  { gl with divisors := fun l => if l = loc then divisor else gl.divisors l }

/-- `glUseProgram(prog)`. -/
def GLState.useProgram (gl : GLState) (prog : Nat) : GLState :=
  { gl with active_program := prog }

/-- `glDeleteProgram(prog)`. -/
def GLState.deleteProgram (gl : GLState) (prog : Nat) : GLState :=
  { gl with deleted_programs := prog :: gl.deleted_programs }

/-- A concrete initial GL driver state used for concrete runs. -/
def gl0 : GLState :=
  { next_handle := 1
    bound_texture_2d := 0
    bound_framebuffer := 0
    teximage_log := []
    enabled_attribs := fun _ => false
    divisors := fun _ => 0
    active_program := 0
    deleted_programs := []
    attrib_loc_of := fun _ _ => 0
    uniform_loc_of := fun _ _ => 0 }

/-- `wf::framebuffer_base_t::allocate` (opengl.cpp lines 258-317), threaded
through the modelled GL driver.  Returns (resized, new target state, new
GL state).  When `fb` or `tex` holds the `(uint32_t)-1` sentinel, fresh GL
names are generated; storage is (re)allocated via `glTexImage2D` when this
is the first allocation or the size differs from the current viewport,
except for targets with `fb = 0`; the framebuffer-completeness check of
the source always passes in the modelled driver, so the early `false`
return on incompleteness is not reachable here. -/
def framebuffer_base_t.allocate (self : framebuffer_base_t) (gl : GLState)
    (width height : Int) : Bool × framebuffer_base_t × GLState :=
  let first_fb := self.fb = u32max
  let fb_gl := if first_fb then GLState.genOne gl else (self.fb, gl)
  let fbh := fb_gl.1
  let glA := fb_gl.2
  let first_tex := self.tex = u32max
  let tex_gl :=
    if first_tex then
      let g := GLState.genOne glA
      (g.1, GLState.bindTexture2D g.2 g.1)
    else (self.tex, glA)
  let texh := tex_gl.1
  let glB := tex_gl.2
  let first_allocate := first_fb ∨ first_tex
  let is_resize := fbh ≠ 0 ∧
    (first_allocate ∨ width ≠ self.viewport_width ∨ height ≠ self.viewport_height)
  let glC := if is_resize then GLState.texImage2D (GLState.bindTexture2D glB texh) width height else glB
  let glD := if first_allocate then
      GLState.bindTexture2D (GLState.bindFramebuffer glC fbh) texh
    else glC
  (decide (is_resize ∨ first_allocate),
    { self with fb := fbh, tex := texh, viewport_width := width, viewport_height := height },
    GLState.bindFramebuffer (GLState.bindTexture2D glD 0) 0)

/-!
Model of `OpenGL::program_t` (opengl.cpp lines 488-684).  The pimpl
fields become a plain record; the `std::set<int>` tracking sets become
duplicate-free lists; the per-class `std::map<std::string, int>` caches
become association lists keyed by (class, name).
-/

/-- The per-class program-id array `int id[wf::TEXTURE_TYPE_ALL]`. -/
structure ProgIds where
  rgba : Nat
  rgbx : Nat
  external : Nat
deriving DecidableEq, Repr

/-- Array indexing `id[type]`. -/
def ProgIds.get (ids : ProgIds) : wf.texture_type_t → Nat
  | .RGBA => ids.rgba
  | .RGBX => ids.rgbx
  | .EXTERNAL => ids.external

/-- Array assignment `id[type] = v`. -/
def ProgIds.set (ids : ProgIds) : wf.texture_type_t → Nat → ProgIds
  | .RGBA, v => { ids with rgba := v }
  | .RGBX, v => { ids with rgbx := v }
  | .EXTERNAL, v => { ids with external := v }

/-- Lookup in an association-list model of `std::map<std::string, int>`,
keyed additionally by the texture class of the per-class array. -/
def cache_find (l : List ((wf.texture_type_t × String) × Int))
    (key : wf.texture_type_t × String) : Option Int :=
  match l with
  | [] => none
  | (k, v) :: rest => if k = key then some v else cache_find rest key

/-- `std::set<int>::insert`. -/
def set_insert (x : Int) (l : List Int) : List Int :=
  if x ∈ l then l else x :: l

/-- The state of `OpenGL::program_t` / its `impl` (opengl.cpp lines 488-523). -/
structure ProgState where
  active_attrs : List Int := []
  active_attrs_divisors : List Int := []
  active_program_idx : wf.texture_type_t := .RGBA
  ids : ProgIds := ⟨0, 0, 0⟩
  uniforms : List ((wf.texture_type_t × String) × Int) := []
  attribs : List ((wf.texture_type_t × String) × Int) := []
deriving DecidableEq, Repr

namespace ProgState

/-- `impl::find_uniform_loc` (opengl.cpp lines 500-509): per-class cached
resolution of a uniform name for the currently active program. -/
def find_uniform_loc (p : ProgState) (gl : GLState) (name : String) : Int × ProgState :=
  match cache_find p.uniforms (p.active_program_idx, name) with
  | some loc => (loc, p)
  | none =>
      let loc := gl.uniform_loc_of (p.ids.get p.active_program_idx) name
      (loc, { p with uniforms := ((p.active_program_idx, name), loc) :: p.uniforms })

/-- `impl::find_attrib_loc` (opengl.cpp lines 512-522): per-class cached
resolution of an attribute name for the currently active program. -/
def find_attrib_loc (p : ProgState) (gl : GLState) (name : String) : Int × ProgState :=
  match cache_find p.attribs (p.active_program_idx, name) with
  | some loc => (loc, p)
  | none =>
      let loc := gl.attrib_loc_of (p.ids.get p.active_program_idx) name
      (loc, { p with attribs := ((p.active_program_idx, name), loc) :: p.attribs })

/-- `program_t::free_resources` (opengl.cpp lines 582-592): deletes every
non-zero per-class program and clears the array. -/
def free_resources (p : ProgState) (gl : GLState) : ProgState × GLState :=
  let del := fun (g : GLState) (i : Nat) => if i ≠ 0 then g.deleteProgram i else g
  let gl := del (del (del gl p.ids.rgba) p.ids.rgbx) p.ids.external
  ({ p with ids := ⟨0, 0, 0⟩ }, gl)

/-- `program_t::set_simple` (opengl.cpp lines 532-537): frees previously
held programs, then registers `program_id` for exactly the class `type`. -/
def set_simple (p : ProgState) (gl : GLState) (program_id : Nat)
    (type : wf.texture_type_t) : ProgState × GLState :=
  let fr := free_resources p gl
  ({ fr.1 with ids := fr.1.ids.set type program_id }, fr.2)

/-- `program_t::use` (opengl.cpp lines 594-604): throws a runtime error when
no program is registered for `type` (id 0), otherwise activates that
class's GL program and records the active class.  The first component is
the exception channel; on `Except.error` the returned states are the
entry states, matching the C++ throw happening before any mutation. -/
def use (p : ProgState) (gl : GLState) (type : wf.texture_type_t) :
    Except String Unit × ProgState × GLState :=
  if p.ids.get type = 0 then
    (Except.error ("program_t has no program for type " ++ toString type.toNat), p, gl)
  else
    (Except.ok (), { p with active_program_idx := type },
      gl.useProgram (p.ids.get type))

/-- `program_t::attrib_pointer` (opengl.cpp lines 642-650): resolves the
attribute location, tracks it in `active_attrs` and enables the array. -/
def attrib_pointer (p : ProgState) (gl : GLState) (attrib : String) :
    ProgState × GLState :=
  let r := find_attrib_loc p gl attrib
  ({ r.2 with active_attrs := set_insert r.1 r.2.active_attrs },
    gl.enableVertexAttribArray r.1)

/-- `program_t::attrib_divisor` (opengl.cpp lines 652-657): resolves the
attribute location, tracks it in `active_attrs_divisors` and sets the
divisor. -/
def attrib_divisor (p : ProgState) (gl : GLState) (attrib : String)
    (divisor : Nat) : ProgState × GLState :=
  let r := find_attrib_loc p gl attrib
  ({ r.2 with active_attrs_divisors := set_insert r.1 r.2.active_attrs_divisors },
    gl.vertexAttribDivisor r.1 divisor)

/-- `program_t::deactivate` (opengl.cpp lines 669-684): resets every tracked
divisor to 0, disables every tracked attribute array, clears both tracking
sets and unbinds the program. -/
def deactivate (p : ProgState) (gl : GLState) : ProgState × GLState :=
  let gl1 := p.active_attrs_divisors.foldl (fun g loc => g.vertexAttribDivisor loc 0) gl
  let gl2 := p.active_attrs.foldl (fun g loc => g.disableVertexAttribArray loc) gl1
  ({ p with active_attrs_divisors := [], active_attrs := [] }, gl2.useProgram 0)

end ProgState

/-- A single call in a `attrib_pointer` / `attrib_divisor` call sequence.
The `size`, `stride` and data-pointer arguments of `attrib_pointer` do not
affect the tracked state and are omitted. -/
inductive AttribOp where
  | pointer (attrib : String)
  | divisor (attrib : String) (d : Nat)
deriving DecidableEq, Repr

/-- Run a sequence of attribute calls against a program and driver state. -/
def runAttribOps (p : ProgState) (gl : GLState) : List AttribOp → ProgState × GLState
  | [] => (p, gl)
  | AttribOp.pointer a :: rest =>
      let r := p.attrib_pointer gl a
      runAttribOps r.1 r.2 rest
  | AttribOp.divisor a d :: rest =>
      let r := p.attrib_divisor gl a d
      runAttribOps r.1 r.2 rest

/-!
Model of the textured-quad draw path (opengl.cpp lines 127-196).  The draw
is summarised by the `DrawCall` record it issues: the vertex and texture
coordinate arrays, the MVP matrix and color uniform, the texture class the
multiplexer is asked for, and the blending setup.
-/

/-- `gl_geometry` (opengl.hpp lines 26-29): float quad corners. -/
structure gl_geometry where
  x1 : ℚ := 0
  y1 : ℚ := 0
  x2 : ℚ := 0
  y2 : ℚ := 0
deriving DecidableEq, Repr

/-- `OpenGL::texture_rendering_flags_t` (opengl.hpp lines 179-187). -/
def TEXTURE_TRANSFORM_INVERT_X : Nat := 1

/-- Flag bit `TEXTURE_TRANSFORM_INVERT_Y`. -/
def TEXTURE_TRANSFORM_INVERT_Y : Nat := 2

/-- Flag bit `TEXTURE_USE_TEX_GEOMETRY`. -/
def TEXTURE_USE_TEX_GEOMETRY : Nat := 4

/-- The observable content of the GL draw issued by
`OpenGL::render_transformed_texture`. -/
structure DrawCall where
  tex_type : wf.texture_type_t
  vertexData : List ℚ
  coordData : List ℚ
  mvp : Mat4
  color : Vec4
  blend_enabled : Bool
  vertex_count : Nat
deriving DecidableEq, Repr

namespace OpenGL

/-- `OpenGL::render_transformed_texture` base overload (opengl.cpp lines
127-171): optionally swaps the quad's X/Y corner pairs per the invert
flags, emits the 4-vertex triangle fan for the quad, the unit square (or
`texg`) as texture coordinates, the `MVP` and `color` uniforms, with
blending enabled. -/
def render_transformed_texture (tex : wf.texture_t) (g texg : gl_geometry)
    (model : Mat4) (color : Vec4) (bits : Nat) : DrawCall :=
  let fg1 := if bits &&& TEXTURE_TRANSFORM_INVERT_Y ≠ 0 then
      { g with y1 := g.y2, y2 := g.y1 } else g
  let final_g := if bits &&& TEXTURE_TRANSFORM_INVERT_X ≠ 0 then
      { fg1 with x1 := fg1.x2, x2 := fg1.x1 } else fg1
  { tex_type := tex.type
    vertexData := [final_g.x1, final_g.y2, final_g.x2, final_g.y2,
                   final_g.x2, final_g.y1, final_g.x1, final_g.y1]
    coordData :=
      if bits &&& TEXTURE_USE_TEX_GEOMETRY ≠ 0 then
        [texg.x1, texg.y2, texg.x2, texg.y2, texg.x2, texg.y1, texg.x1, texg.y1]
      else
        [0, 0, 1, 0, 1, 1, 0, 1]
    mvp := model
    color := color
    blend_enabled := true
    vertex_count := 4 }

/-- `OpenGL::render_transformed_texture` geometry overload (opengl.cpp lines
173-185): clears the TEX_GEOMETRY flag and forwards the integer rectangle
as float corners. -/
def render_transformed_texture_geo (tex : wf.texture_t) (geometry : wlr_box)
    (transform : Mat4) (color : Vec4) (bits : Nat) : DrawCall :=
  let bits2 := bits &&& (u32max - TEXTURE_USE_TEX_GEOMETRY)
  let gg : gl_geometry :=
    { x1 := (geometry.x : ℚ)
      y1 := (geometry.y : ℚ)
      x2 := (geometry.x : ℚ) + (geometry.width : ℚ)
      y2 := (geometry.y : ℚ) + (geometry.height : ℚ) }
  render_transformed_texture tex gg {} transform color bits2

/-- `OpenGL::render_transformed_texture` framebuffer overload, declared as
`OpenGL::render_texture` in opengl.hpp lines 235-239 (opengl.cpp lines
187-196).  The source computes `actual_geometry` by offsetting `geometry`
by the framebuffer's origin, but then passes the original `geometry` (the
local `actual_geometry` is never used), together with the framebuffer's
orthographic projection.  The definition mirrors that faithfully. -/
def render_texture (tex : wf.texture_t) (framebuffer : framebuffer_t)
    (geometry : wlr_box) (color : Vec4) (bits : Nat) : DrawCall :=
  let actual_geometry : wlr_box :=
    { geometry with
      x := geometry.x + framebuffer.geometry.x
      y := geometry.y + framebuffer.geometry.y }
  let _unused := actual_geometry
  render_transformed_texture_geo tex geometry
    framebuffer.get_orthographic_projection color bits

end OpenGL

/-! ### Concrete fixtures used by the theorems below -/

/-- An output render target with pixel scale 3/2 and otherwise default
configuration. -/
def fb_scale_3_2 : framebuffer_t := { scale := 3 / 2 }

/-- An output render target whose `has_nonstandard_transform` flag is set. -/
def fb_nonstandard : framebuffer_t := { has_nonstandard_transform := true }

/-- A default RGBA texture view. -/
def tex_c1 : wf.texture_t := {}

/-- An output render target whose output rectangle has the nonzero origin
(10, 20). -/
def fb_c1 : framebuffer_t :=
  { geometry := ⟨10, 20, 100, 100⟩, viewport_width := 100, viewport_height := 100 }

/-! ### C7 -/

/-- C7: `damage_box_from_geometry_box` maps origins by `floor(coord * scale)`
and extents by `ceil(extent * scale)`; compositor box (0,0,3,3) at scale 3/2
converts to damage box (0,0,5,5), and compositor box (1,1,3,3) at scale 3/2
converts to a damage box with origin (1,1), not (2,2). -/
theorem C7_damage_box_floor_ceil :
    (∀ (fb : framebuffer_t) (box : wlr_box),
      fb.damage_box_from_geometry_box box =
        ⟨⌊(box.x : ℚ) * fb.scale⌋, ⌊(box.y : ℚ) * fb.scale⌋,
         ⌈(box.width : ℚ) * fb.scale⌉, ⌈(box.height : ℚ) * fb.scale⌉⟩) ∧
    fb_scale_3_2.damage_box_from_geometry_box ⟨0, 0, 3, 3⟩ = ⟨0, 0, 5, 5⟩ ∧
    (fb_scale_3_2.damage_box_from_geometry_box ⟨1, 1, 3, 3⟩).x = 1 ∧
    (fb_scale_3_2.damage_box_from_geometry_box ⟨1, 1, 3, 3⟩).y = 1 := by
  refine ⟨fun fb box => rfl, ?_, ?_, ?_⟩ <;>
    simp only [fb_scale_3_2, framebuffer_t.damage_box_from_geometry_box,
      wlr_box.mk.injEq]
  · refine ⟨by norm_num, by norm_num, ?_, ?_⟩ <;>
      · rw [Int.ceil_eq_iff]
        constructor <;> norm_num
  · norm_num
  · norm_num

/-! ### C3 -/

/-- C3 fails on the code: at compositor box (1,1,2,2) and the positive scale
3/2, the damage box produced by `damage_box_from_geometry_box` ends at
`floor(1 * 3/2) + ceil(2 * 3/2) = 1 + 3 = 4`, strictly short of the exactly
scaled right edge `(1 + 2) * 3/2 = 9/2`: the damage region under-covers. -/
theorem C3_counterexample :
    (0 : ℚ) < fb_scale_3_2.scale ∧
    ¬ (((fb_scale_3_2.damage_box_from_geometry_box ⟨1, 1, 2, 2⟩).x : ℚ) +
        ((fb_scale_3_2.damage_box_from_geometry_box ⟨1, 1, 2, 2⟩).width : ℚ) ≥
        ((1 : ℚ) + 2) * fb_scale_3_2.scale) := by
  constructor
  · norm_num [fb_scale_3_2]
  · have hx : (fb_scale_3_2.damage_box_from_geometry_box ⟨1, 1, 2, 2⟩).x = 1 := by
      simp only [fb_scale_3_2, framebuffer_t.damage_box_from_geometry_box]
      norm_num
    have hw : (fb_scale_3_2.damage_box_from_geometry_box ⟨1, 1, 2, 2⟩).width = 3 := by
      simp only [fb_scale_3_2, framebuffer_t.damage_box_from_geometry_box]
      rw [Int.ceil_eq_iff]
      constructor <;> norm_num
    rw [hx, hw]
    norm_num [fb_scale_3_2]

/-- C3 (amended): the origin inequalities always hold, and the extent
inequalities hold whenever the scaled origin coordinate is an integer (in
particular for every positive integer scale); with a fractional scaled
origin the damage box can under-cover on the far edge. -/
theorem C3_cover (fb : framebuffer_t) (box : wlr_box) (_hs : 0 < fb.scale) :
    ((fb.damage_box_from_geometry_box box).x : ℚ) ≤ (box.x : ℚ) * fb.scale ∧
    ((fb.damage_box_from_geometry_box box).y : ℚ) ≤ (box.y : ℚ) * fb.scale ∧
    ((box.x : ℚ) * fb.scale = ((fb.damage_box_from_geometry_box box).x : ℚ) →
      ((box.x : ℚ) + (box.width : ℚ)) * fb.scale ≤
        ((fb.damage_box_from_geometry_box box).x : ℚ) +
        ((fb.damage_box_from_geometry_box box).width : ℚ)) ∧
    ((box.y : ℚ) * fb.scale = ((fb.damage_box_from_geometry_box box).y : ℚ) →
      ((box.y : ℚ) + (box.height : ℚ)) * fb.scale ≤
        ((fb.damage_box_from_geometry_box box).y : ℚ) +
        ((fb.damage_box_from_geometry_box box).height : ℚ)) := by
  unfold framebuffer_t.damage_box_from_geometry_box
  refine ⟨Int.floor_le _, Int.floor_le _, ?_, ?_⟩ <;> intro hint
  · have hc : (box.width : ℚ) * fb.scale ≤ (⌈(box.width : ℚ) * fb.scale⌉ : ℚ) :=
      Int.le_ceil _
    rw [add_mul]
    rw [hint] at *
    linarith
  · have hc : (box.height : ℚ) * fb.scale ≤ (⌈(box.height : ℚ) * fb.scale⌉ : ℚ) :=
      Int.le_ceil _
    rw [add_mul]
    rw [hint] at *
    linarith

/-- C3 witness: the amended covering property evaluated at box (1,1,3,3) and
the integer scale 2. -/
theorem C3_cover_witness :
    (0 : ℚ) < (({ scale := 2 } : framebuffer_t)).scale ∧
    ((({ scale := 2 } : framebuffer_t).damage_box_from_geometry_box
        ⟨1, 1, 3, 3⟩).x : ℚ) ≤ ((1 : ℚ)) * ({ scale := 2 } : framebuffer_t).scale :=
  ⟨by decide, by
    have h := C3_cover ({ scale := 2 } : framebuffer_t) ⟨1, 1, 3, 3⟩ (by decide)
    simpa using h.1⟩

/-! ### C2 -/

/-- C2 fails on the code: with `has_nonstandard_transform` set,
`framebuffer_box_from_damage_box` does not raise; it logs a diagnostic and
returns exactly the zero rectangle (0,0,0,0), here at box (3,5,7,9). -/
theorem C2_counterexample :
    fb_nonstandard.framebuffer_box_from_damage_box ⟨3, 5, 7, 9⟩ = ⟨0, 0, 0, 0⟩ := by
  decide

/-- C2 (amended): for every box, on a target whose `has_nonstandard_transform`
flag is set, `framebuffer_box_from_damage_box` (and hence
`framebuffer_box_from_geometry_box`) logs an "unimplemented" diagnostic and
returns the all-zero rectangle; no error is raised. -/
theorem C2_zero_box (fb : framebuffer_t) (box : wlr_box)
    (h : fb.has_nonstandard_transform = true) :
    fb.framebuffer_box_from_damage_box box = ⟨0, 0, 0, 0⟩ ∧
    fb.framebuffer_box_from_geometry_box box = ⟨0, 0, 0, 0⟩ := by
  unfold framebuffer_t.framebuffer_box_from_geometry_box
    framebuffer_t.framebuffer_box_from_damage_box
  simp [h]

/-- C2 witness: the amended zero-box behaviour evaluated at box (1,2,3,4). -/
theorem C2_zero_box_witness :
    fb_nonstandard.framebuffer_box_from_damage_box ⟨1, 2, 3, 4⟩ = ⟨0, 0, 0, 0⟩ ∧
    fb_nonstandard.framebuffer_box_from_geometry_box ⟨1, 2, 3, 4⟩ = ⟨0, 0, 0, 0⟩ :=
  C2_zero_box fb_nonstandard ⟨1, 2, 3, 4⟩ rfl

/-! ### C6 -/

/-- C6: on an output render target with rotation transform 0 (normal, not
flipped), standard transform and scale 1, `framebuffer_box_from_geometry_box`
returns its input box unchanged. -/
theorem C6_roundtrip (fb : framebuffer_t) (box : wlr_box)
    (h1 : fb.wl_transform = 0) (h2 : fb.has_nonstandard_transform = false)
    (h3 : fb.scale = 1) :
    fb.framebuffer_box_from_geometry_box box = box := by
  obtain ⟨bx, b2, bw, bh⟩ := box
  unfold framebuffer_t.framebuffer_box_from_geometry_box
    framebuffer_t.framebuffer_box_from_damage_box
    framebuffer_t.damage_box_from_geometry_box
    wlr_output_transform_invert wlr_box_transform
  simp [h1, h2, h3]

/-- C6 witness: the identity round-trip evaluated on the default target at
box (2,3,4,5). -/
theorem C6_roundtrip_witness :
    ({} : framebuffer_t).framebuffer_box_from_geometry_box ⟨2, 3, 4, 5⟩ =
      ⟨2, 3, 4, 5⟩ :=
  C6_roundtrip {} ⟨2, 3, 4, 5⟩ rfl rfl rfl

/-! ### C9 -/

/-- C9: the view built from imported texture attributes is classified
EXTERNAL exactly when the sampling target is not `GL_TEXTURE_2D`, otherwise
RGBA when the source declares an alpha channel and RGBX when it does not;
and its `invert_y` flag is the logical NOT of the source's `inverted_y`. -/
theorem C9_classification (a : wf.wlr_gles2_texture_attribs) :
    ((wf.texture_t.of_wlr a).type = wf.texture_type_t.EXTERNAL ↔
      a.target ≠ wf.GL_TEXTURE_2D) ∧
    (a.target = wf.GL_TEXTURE_2D →
      (wf.texture_t.of_wlr a).type =
        (if a.has_alpha then wf.texture_type_t.RGBA else wf.texture_type_t.RGBX)) ∧
    (wf.texture_t.of_wlr a).invert_y = !a.inverted_y := by
  unfold wf.texture_t.of_wlr
  refine ⟨?_, ?_, rfl⟩ <;> split_ifs with h h2 <;> simp_all

/-! ### C5 -/

/-- C5: `use` raises whenever no program is registered for the requested
texture class; after `set_simple(h, RGBA)` with a real program handle,
`use(RGBA)` succeeds while `use(RGBX)` and `use(EXTERNAL)` still raise. -/
theorem C5_use_after_set_simple (p : ProgState) (gl : GLState) (h : Nat)
    (hh : h ≠ 0) :
    (∀ (q : ProgState) (g : GLState) (ty : wf.texture_type_t),
      q.ids.get ty = 0 → ∃ e, (q.use g ty).1 = Except.error e) ∧
    ((p.set_simple gl h wf.texture_type_t.RGBA).1.use
        (p.set_simple gl h wf.texture_type_t.RGBA).2 wf.texture_type_t.RGBA).1 =
      Except.ok () ∧
    (∃ e, ((p.set_simple gl h wf.texture_type_t.RGBA).1.use
        (p.set_simple gl h wf.texture_type_t.RGBA).2 wf.texture_type_t.RGBX).1 =
      Except.error e) ∧
    (∃ e, ((p.set_simple gl h wf.texture_type_t.RGBA).1.use
        (p.set_simple gl h wf.texture_type_t.RGBA).2 wf.texture_type_t.EXTERNAL).1 =
      Except.error e) := by
  have huse : ∀ (q : ProgState) (g : GLState) (ty : wf.texture_type_t),
      q.ids.get ty = 0 → ∃ e, (q.use g ty).1 = Except.error e := by
    intro q g ty hq
    refine ⟨"program_t has no program for type " ++ toString ty.toNat, ?_⟩
    simp [ProgState.use, hq]
  refine ⟨huse, ?_, ?_, ?_⟩
  · simp [ProgState.use, ProgState.set_simple, ProgState.free_resources,
      ProgIds.get, ProgIds.set, hh]
  · exact huse _ _ _ (by
      simp [ProgState.set_simple, ProgState.free_resources, ProgIds.get,
        ProgIds.set])
  · exact huse _ _ _ (by
      simp [ProgState.set_simple, ProgState.free_resources, ProgIds.get,
        ProgIds.set])

/-- C5 witness: evaluated on a default program state and the handle 5. -/
theorem C5_use_after_set_simple_witness :
    ((({} : ProgState).set_simple gl0 5 wf.texture_type_t.RGBA).1.use
        (({} : ProgState).set_simple gl0 5 wf.texture_type_t.RGBA).2
        wf.texture_type_t.RGBA).1 = Except.ok () ∧
    (∃ e, ((({} : ProgState).set_simple gl0 5 wf.texture_type_t.RGBA).1.use
        (({} : ProgState).set_simple gl0 5 wf.texture_type_t.RGBA).2
        wf.texture_type_t.RGBX).1 = Except.error e) :=
  ⟨(C5_use_after_set_simple {} gl0 5 (by decide)).2.1,
   (C5_use_after_set_simple {} gl0 5 (by decide)).2.2.1⟩

/-! ### C10 -/

/-- C10: when `use` raises because no program is registered for the class,
the multiplexer state (active class, per-class caches, tracking sets) and
the GL driver state are exactly as before the call: the throw precedes any
mutation, so no GPU program is activated. -/
theorem C10_use_error_atomic (p : ProgState) (gl : GLState)
    (ty : wf.texture_type_t) (h : p.ids.get ty = 0) :
    (p.use gl ty).1 =
      Except.error ("program_t has no program for type " ++ toString ty.toNat) ∧
    (p.use gl ty).2.1 = p ∧
    (p.use gl ty).2.2 = gl := by
  simp [ProgState.use, h]

/-- C10 witness: evaluated on a default (nothing-registered) program state. -/
theorem C10_use_error_atomic_witness :
    (({} : ProgState).use gl0 wf.texture_type_t.RGBA).1 =
      Except.error ("program_t has no program for type " ++
        toString (wf.texture_type_t.RGBA).toNat) ∧
    (({} : ProgState).use gl0 wf.texture_type_t.RGBA).2.1 = ({} : ProgState) ∧
    (({} : ProgState).use gl0 wf.texture_type_t.RGBA).2.2 = gl0 :=
  C10_use_error_atomic {} gl0 wf.texture_type_t.RGBA rfl

/-! ### C1 -/

/-- C1 fails on the code: the framebuffer-relative overload computes
`actual_geometry` as the geometry offset by the framebuffer origin (10, 20)
but then draws the quad at the unshifted geometry (1,2)-(4,6), not at
(11,22)-(14,26); the transform matrix is the framebuffer's orthographic
projection as claimed. -/
theorem C1_offset_not_applied :
    (OpenGL.render_texture tex_c1 fb_c1 ⟨1, 2, 3, 4⟩ ⟨1, 1, 1, 1⟩ 0).vertexData =
      [1, 6, 4, 6, 4, 2, 1, 2] ∧
    (OpenGL.render_texture tex_c1 fb_c1 ⟨1, 2, 3, 4⟩ ⟨1, 1, 1, 1⟩ 0).vertexData ≠
      [11, 26, 14, 26, 14, 22, 11, 22] ∧
    (OpenGL.render_texture tex_c1 fb_c1 ⟨1, 2, 3, 4⟩ ⟨1, 1, 1, 1⟩ 0).mvp =
      fb_c1.get_orthographic_projection := by
  refine ⟨?_, ?_, rfl⟩ <;>
    norm_num [OpenGL.render_texture, OpenGL.render_transformed_texture_geo,
      OpenGL.render_transformed_texture, TEXTURE_TRANSFORM_INVERT_X,
      TEXTURE_TRANSFORM_INVERT_Y, TEXTURE_USE_TEX_GEOMETRY]

/-! ### C4 -/

/-- C4: starting from an unallocated base render target, the first
`allocate(w,h)` returns true; a second call with the same size returns
false; a call whose size differs returns true and reissues the
`glTexImage2D` storage allocation (invalidating the backing texture
contents), as witnessed by the storage log. -/
theorem C4_allocate_lifecycle (w h w2 h2 : Int) (_hw : 0 < w) (_hh : 0 < h)
    (hne : w2 ≠ w ∨ h2 ≠ h) :
    (framebuffer_base_t.allocate {} gl0 w h).1 = true ∧
    (framebuffer_base_t.allocate (framebuffer_base_t.allocate {} gl0 w h).2.1
      (framebuffer_base_t.allocate {} gl0 w h).2.2 w h).1 = false ∧
    (framebuffer_base_t.allocate (framebuffer_base_t.allocate {} gl0 w h).2.1
      (framebuffer_base_t.allocate {} gl0 w h).2.2 w2 h2).1 = true ∧
    (framebuffer_base_t.allocate (framebuffer_base_t.allocate {} gl0 w h).2.1
      (framebuffer_base_t.allocate {} gl0 w h).2.2 w2 h2).2.2.teximage_log =
      ((framebuffer_base_t.allocate {} gl0 w h).2.1.tex, w2, h2) ::
        (framebuffer_base_t.allocate {} gl0 w h).2.2.teximage_log := by
  have h1 : framebuffer_base_t.allocate {} gl0 w h =
      (true, ⟨2, 1, w, h⟩,
        { gl0 with next_handle := 3, teximage_log := [(2, w, h)] }) := rfl
  refine ⟨by rw [h1], ?_, ?_, ?_⟩
  · rw [h1]
    simp [framebuffer_base_t.allocate, u32max, GLState.genOne,
      GLState.bindTexture2D, GLState.bindFramebuffer, GLState.texImage2D]
  · rw [h1]
    rcases hne with hc | hc <;>
      simp [framebuffer_base_t.allocate, u32max, GLState.genOne,
        GLState.bindTexture2D, GLState.bindFramebuffer, GLState.texImage2D, hc]
  · rw [h1]
    rcases hne with hc | hc <;>
      simp [framebuffer_base_t.allocate, u32max, GLState.genOne,
        GLState.bindTexture2D, GLState.bindFramebuffer, GLState.texImage2D, hc]

/-! ### C8 helper lemmas -/

/-- Inserting into the tracked set keeps the inserted element a member. -/
theorem mem_set_insert_self (x : Int) (l : List Int) : x ∈ set_insert x l := by
  unfold set_insert
  split <;> simp [*]

/-- Inserting into the tracked set preserves existing members. -/
theorem mem_set_insert_of_mem {y : Int} (x : Int) {l : List Int} (h : y ∈ l) :
    y ∈ set_insert x l := by
  unfold set_insert
  split <;> simp [h]

/-- `find_attrib_loc` only touches the location cache, not the tracking
sets. -/
theorem find_attrib_loc_tracking (p : ProgState) (g : GLState) (n : String) :
    (p.find_attrib_loc g n).2.active_attrs = p.active_attrs ∧
    (p.find_attrib_loc g n).2.active_attrs_divisors = p.active_attrs_divisors := by
  unfold ProgState.find_attrib_loc
  cases cache_find p.attribs (p.active_program_idx, n) <;> simp

/-- After folding divisor-zero writes over a list, every listed location
(and every location already at zero) reads zero. -/
theorem divisor_fold_eq_zero (L : List Int) (g : GLState) (loc : Int)
    (h : g.divisors loc = 0 ∨ loc ∈ L) :
    (L.foldl (fun gg l => gg.vertexAttribDivisor l 0) g).divisors loc = 0 := by
  induction L generalizing g with
  | nil => simpa using h
  | cons a t ih =>
    simp only [List.foldl_cons]
    apply ih
    by_cases hl : loc = a
    · left
      simp [GLState.vertexAttribDivisor, hl]
    · rcases h with h | h
      · left
        simp [GLState.vertexAttribDivisor, hl, h]
      · rcases List.mem_cons.mp h with h' | h'
        · exact absurd h' hl
        · right
          exact h'

/-- After folding attribute disables over a list, every listed location
(and every location already disabled) reads disabled. -/
theorem disable_fold_eq_false (L : List Int) (g : GLState) (loc : Int)
    (h : g.enabled_attribs loc = false ∨ loc ∈ L) :
    (L.foldl (fun gg l => gg.disableVertexAttribArray l) g).enabled_attribs loc
      = false := by
  induction L generalizing g with
  | nil => simpa using h
  | cons a t ih =>
    simp only [List.foldl_cons]
    apply ih
    by_cases hl : loc = a
    · left
      simp [GLState.disableVertexAttribArray, hl]
    · rcases h with h | h
      · left
        simp [GLState.disableVertexAttribArray, hl, h]
      · rcases List.mem_cons.mp h with h' | h'
        · exact absurd h' hl
        · right
          exact h'

/-- Disabling attribute arrays leaves the divisor state untouched. -/
theorem disable_fold_divisors (L : List Int) (g : GLState) :
    (L.foldl (fun gg l => gg.disableVertexAttribArray l) g).divisors =
      g.divisors := by
  induction L generalizing g with
  | nil => rfl
  | cons a t ih =>
    simp only [List.foldl_cons]
    rw [ih]
    simp [GLState.disableVertexAttribArray]

/-- Locations tracked in `active_attrs` stay tracked across further calls. -/
theorem runAttribOps_attrs_mono (ops : List AttribOp) (p : ProgState)
    (g : GLState) (loc : Int) (h : loc ∈ p.active_attrs) :
    loc ∈ (runAttribOps p g ops).1.active_attrs := by
  induction ops generalizing p g with
  | nil => simpa using h
  | cons o t ih =>
    cases o with
    | pointer a =>
      simp only [runAttribOps]
      apply ih
      simp only [ProgState.attrib_pointer]
      exact mem_set_insert_of_mem _
        (((find_attrib_loc_tracking p g a).1).symm ▸ h)
    | divisor a d =>
      simp only [runAttribOps]
      apply ih
      simp only [ProgState.attrib_divisor]
      exact ((find_attrib_loc_tracking p g a).1).symm ▸ h

/-- Locations tracked in `active_attrs_divisors` stay tracked across further
calls. -/
theorem runAttribOps_divs_mono (ops : List AttribOp) (p : ProgState)
    (g : GLState) (loc : Int) (h : loc ∈ p.active_attrs_divisors) :
    loc ∈ (runAttribOps p g ops).1.active_attrs_divisors := by
  induction ops generalizing p g with
  | nil => simpa using h
  | cons o t ih =>
    cases o with
    | pointer a =>
      simp only [runAttribOps]
      apply ih
      simp only [ProgState.attrib_pointer]
      exact ((find_attrib_loc_tracking p g a).2).symm ▸ h
    | divisor a d =>
      simp only [runAttribOps]
      apply ih
      simp only [ProgState.attrib_divisor]
      exact mem_set_insert_of_mem _
        (((find_attrib_loc_tracking p g a).2).symm ▸ h)

/-- Every attribute location enabled during a call sequence is tracked in
`active_attrs` (unless it was already enabled before the sequence). -/
theorem runAttribOps_enabled_sources (ops : List AttribOp) (p : ProgState)
    (g : GLState) (loc : Int)
    (h : (runAttribOps p g ops).2.enabled_attribs loc = true) :
    g.enabled_attribs loc = true ∨
      loc ∈ (runAttribOps p g ops).1.active_attrs := by
  induction ops generalizing p g with
  | nil =>
    left
    simpa using h
  | cons o t ih =>
    cases o with
    | pointer a =>
      simp only [runAttribOps] at h ⊢
      rcases ih _ _ h with hg | hm
      · by_cases hl : loc = (p.find_attrib_loc g a).1
        · right
          apply runAttribOps_attrs_mono
          simp only [ProgState.attrib_pointer]
          rw [hl]
          exact mem_set_insert_self _ _
        · left
          simpa [ProgState.attrib_pointer, GLState.enableVertexAttribArray,
            hl] using hg
      · right
        exact hm
    | divisor a d =>
      simp only [runAttribOps] at h ⊢
      rcases ih _ _ h with hg | hm
      · left
        simpa [ProgState.attrib_divisor, GLState.vertexAttribDivisor] using hg
      · right
        exact hm

/-- Every location whose divisor was changed during a call sequence is
tracked in `active_attrs_divisors`. -/
theorem runAttribOps_divisor_sources (ops : List AttribOp) (p : ProgState)
    (g : GLState) (loc : Int)
    (h : (runAttribOps p g ops).2.divisors loc ≠ g.divisors loc) :
    loc ∈ (runAttribOps p g ops).1.active_attrs_divisors := by
  induction ops generalizing p g with
  | nil =>
    simp only [runAttribOps] at h
    exact absurd rfl h
  | cons o t ih =>
    cases o with
    | pointer a =>
      simp only [runAttribOps] at h ⊢
      exact ih _ _ (by
        simpa [ProgState.attrib_pointer, GLState.enableVertexAttribArray]
          using h)
    | divisor a d =>
      simp only [runAttribOps] at h ⊢
      by_cases hl : loc = (p.find_attrib_loc g a).1
      · apply runAttribOps_divs_mono
        simp only [ProgState.attrib_divisor]
        rw [hl]
        exact mem_set_insert_self _ _
      · exact ih _ _ (by
          simpa [ProgState.attrib_divisor, GLState.vertexAttribDivisor, hl]
            using h)

/-! ### C8 -/

/-- C8: after any sequence of `attrib_pointer` / `attrib_divisor` calls on a
freshly activated program (empty tracking sets), one `deactivate()` call
disables every attribute location enabled in that sequence, resets every
divisor that was set back to the default 0, leaves both tracking sets
empty, and unbinds the active GPU program. -/
theorem C8_deactivate_cleans (p : ProgState) (gl : GLState)
    (ops : List AttribOp) (_h1 : p.active_attrs = [])
    (_h2 : p.active_attrs_divisors = []) :
    ((runAttribOps p gl ops).1.deactivate (runAttribOps p gl ops).2).1.active_attrs
      = [] ∧
    ((runAttribOps p gl ops).1.deactivate
      (runAttribOps p gl ops).2).1.active_attrs_divisors = [] ∧
    ((runAttribOps p gl ops).1.deactivate
      (runAttribOps p gl ops).2).2.active_program = 0 ∧
    (∀ loc, loc ∈ (runAttribOps p gl ops).1.active_attrs →
      ((runAttribOps p gl ops).1.deactivate
        (runAttribOps p gl ops).2).2.enabled_attribs loc = false) ∧
    (∀ loc, loc ∈ (runAttribOps p gl ops).1.active_attrs_divisors →
      ((runAttribOps p gl ops).1.deactivate
        (runAttribOps p gl ops).2).2.divisors loc = 0) ∧
    (∀ loc, (runAttribOps p gl ops).2.enabled_attribs loc = true →
      gl.enabled_attribs loc = true ∨
      ((runAttribOps p gl ops).1.deactivate
        (runAttribOps p gl ops).2).2.enabled_attribs loc = false) ∧
    (∀ loc, (runAttribOps p gl ops).2.divisors loc ≠ gl.divisors loc →
      ((runAttribOps p gl ops).1.deactivate
        (runAttribOps p gl ops).2).2.divisors loc = 0) := by
  have hdis : ∀ loc, loc ∈ (runAttribOps p gl ops).1.active_attrs →
      ((runAttribOps p gl ops).1.deactivate
        (runAttribOps p gl ops).2).2.enabled_attribs loc = false := by
    intro loc hm
    simp only [ProgState.deactivate, GLState.useProgram]
    exact disable_fold_eq_false _ _ _ (Or.inr hm)
  have hdiv : ∀ loc, loc ∈ (runAttribOps p gl ops).1.active_attrs_divisors →
      ((runAttribOps p gl ops).1.deactivate
        (runAttribOps p gl ops).2).2.divisors loc = 0 := by
    intro loc hm
    simp only [ProgState.deactivate, GLState.useProgram]
    rw [disable_fold_divisors]
    exact divisor_fold_eq_zero _ _ _ (Or.inr hm)
  refine ⟨rfl, rfl, rfl, hdis, hdiv, ?_, ?_⟩
  · intro loc he
    rcases runAttribOps_enabled_sources ops p gl loc he with hg | hm
    · exact Or.inl hg
    · exact Or.inr (hdis loc hm)
  · intro loc hd
    exact hdiv loc (runAttribOps_divisor_sources ops p gl loc hd)

/-- C8 witness: the cleanup property evaluated on a fresh program state and
the two-call sequence `attrib_pointer "position"`, `attrib_divisor "off" 4`. -/
theorem C8_deactivate_cleans_witness :
    ((runAttribOps {} gl0 [AttribOp.pointer "position", AttribOp.divisor "off" 4]).1.deactivate
      (runAttribOps {} gl0
        [AttribOp.pointer "position", AttribOp.divisor "off" 4]).2).1.active_attrs
      = [] ∧
    ((runAttribOps {} gl0 [AttribOp.pointer "position", AttribOp.divisor "off" 4]).1.deactivate
      (runAttribOps {} gl0
        [AttribOp.pointer "position",
          AttribOp.divisor "off" 4]).2).1.active_attrs_divisors = [] :=
  ⟨(C8_deactivate_cleans {} gl0
      [AttribOp.pointer "position", AttribOp.divisor "off" 4] rfl rfl).1,
   (C8_deactivate_cleans {} gl0
      [AttribOp.pointer "position", AttribOp.divisor "off" 4] rfl rfl).2.1⟩

/-- C4 witness: the allocate lifecycle evaluated at sizes 7x5 then 8x5. -/
theorem C4_allocate_lifecycle_witness :
    (framebuffer_base_t.allocate {} gl0 7 5).1 = true ∧
    (framebuffer_base_t.allocate (framebuffer_base_t.allocate {} gl0 7 5).2.1
      (framebuffer_base_t.allocate {} gl0 7 5).2.2 7 5).1 = false ∧
    (framebuffer_base_t.allocate (framebuffer_base_t.allocate {} gl0 7 5).2.1
      (framebuffer_base_t.allocate {} gl0 7 5).2.2 8 5).1 = true ∧
    (framebuffer_base_t.allocate (framebuffer_base_t.allocate {} gl0 7 5).2.1
      (framebuffer_base_t.allocate {} gl0 7 5).2.2 8 5).2.2.teximage_log =
      ((framebuffer_base_t.allocate {} gl0 7 5).2.1.tex, 8, 5) ::
        (framebuffer_base_t.allocate {} gl0 7 5).2.2.teximage_log :=
  C4_allocate_lifecycle 7 5 8 5 (by norm_num) (by norm_num)
    (Or.inl (by norm_num))
